import Mathlib

/-!
Verification of the experiment-runner harness in `src/bgn/cmd/runScript.py`.

The script holds a hard-coded list `args` of five parameter lists of seven
Python integers each, and for each list builds the command
`['go', 'run', 'test1.go', str(a[0]), ..., str(a[6])]`, runs it with
`subprocess.run(cmd, capture_output=True, text=True)` (blocking until the
child terminates), and then executes `print(result.stdout)`.

The embedding models the external simulator as a total function from the
command argument list to a `SimResult` (the fields of Python's
`CompletedProcess` that the script can observe), and models one run of the
script as the list of events (process launch, process termination, console
print) that the loop emits, in order.  `print(s)` writes `s` followed by one
newline, which is reflected when console output is assembled from the printed
events.  The script body raises no exception when every spawn yields a
result, so the interpreter exits with status 0 after the loop.
-/

namespace RunScript

/-- One parameter tuple of the grid.  The Python source stores it as a plain
seven-element list of integers and addresses the fields positionally
(`arg_set[0]` … `arg_set[6]`); the field names here follow the comment block
at the top of the script. -/
structure ArgSet where
  numIterations : Int
  keyBits : Int
  messageSpace : Int
  numBidders : Int
  maxRand : Int
  maxBid : Int
  rngSeed : Int
  deriving DecidableEq, Repr

/-- The seven fields of a tuple, in their positional order (`arg_set[0]` …
`arg_set[6]` in the source). -/
def fields (a : ArgSet) : List Int :=
  [a.numIterations, a.keyBits, a.messageSpace, a.numBidders, a.maxRand,
   a.maxBid, a.rngSeed]

/-- The hard-coded parameter grid `args` of `runScript.py`, lines 11-17. -/
def args : List ArgSet :=
  [⟨5, 512, 10000000000, 5, 10000, 100000, 76⟩,
   ⟨5, 512, 10000000000, 10, 10000, 100000, 76⟩,
   ⟨5, 512, 10000000000, 15, 10000, 100000, 76⟩,
   ⟨5, 512, 10000000000, 20, 10000, 100000, 76⟩,
   ⟨5, 512, 10000000000, 40, 10000, 100000, 76⟩]

/-- The command built for one tuple (`cmd` in the source, lines 22-26):
the invocation prefix `go run`, the entry-point identifier `test1.go`, and
the string representation of each of the seven fields, positionally. -/
def cmd (arg_set : ArgSet) : List String :=
  ["go", "run", "test1.go",
   toString arg_set.numIterations, toString arg_set.keyBits,
   toString arg_set.messageSpace, toString arg_set.numBidders,
   toString arg_set.maxRand, toString arg_set.maxBid,
   toString arg_set.rngSeed]

/-- The observable outcome of one child-process execution: the fields of
Python's `CompletedProcess` that the script can read after
`subprocess.run(cmd, capture_output=True, text=True)`. -/
structure SimResult where
  stdout : String
  stderr : String
  returncode : Int
  deriving DecidableEq, Repr

/-- The external simulator modelled as a function from the full command
argument list to the result of executing it. -/
def Sim : Type := List String → SimResult

/-- An observable event of one run of the harness. -/
inductive Event where
  /-- a child process is started with the given command -/
  | launch (c : List String) : Event
  /-- the child the harness is blocked on terminates with this status -/
  | exited (code : Int) : Event
  /-- the harness passes this text to `print` -/
  | printed (s : String) : Event
  deriving DecidableEq, Repr

/-- The events emitted by one iteration of the loop body (lines 20-32 of the
source): launch the command, block until the child exits, then print the
captured stdout text. -/
def stepEvents (sim : Sim) (arg_set : ArgSet) : List Event :=
  let result := sim (cmd arg_set)
  [Event.launch (cmd arg_set), Event.exited result.returncode,
   Event.printed result.stdout]

/-- The full event trace of the `for arg_set in args` loop over a given
grid. -/
def loop (sim : Sim) : List ArgSet → List Event
  | [] => []
  | arg_set :: rest => stepEvents sim arg_set ++ loop sim rest

/-- The text argument of a print event, if the event is one. -/
def printedOf : Event → Option String
  | Event.printed s => some s
  | _ => none

/-- The command of a launch event, if the event is one. -/
def launchOf : Event → Option (List String)
  | Event.launch c => some c
  | _ => none

/-- Concatenation of a list of strings. -/
def concatAll : List String → String
  | [] => ""
  | s :: rest => s ++ concatAll rest

/-- The console output produced by a trace: each `print(s)` call writes `s`
followed by exactly one newline. -/
def consoleOf (t : List Event) : String :=
  concatAll ((t.filterMap printedOf).map (fun s => s ++ "\n"))

/-- The outcome of one whole run of the script: its event trace and the exit
status of the harness process itself. -/
structure RunOutcome where
  events : List Event
  exitStatus : Nat
  deriving Repr

/-- One run of the script over a grid.  The script body raises no exception
(`subprocess.run` is called without `check=True`, so child failures do not
raise), hence the interpreter always exits with status 0 after the loop. -/
def run (sim : Sim) (grid : List ArgSet) : RunOutcome :=
  { events := loop sim grid, exitStatus := 0 }

/-- A stub simulator that succeeds with empty output. -/
def simZ : Sim := fun _ => ⟨"", "", 0⟩

/-- A stub simulator that fails (non-zero status) with empty output. -/
def simFail : Sim := fun _ => ⟨"", "", 1⟩

/-- A stub simulator that writes a fixed non-empty stdout text. -/
def simX : Sim := fun _ => ⟨"x", "", 0⟩

/-- A stub simulator with noisy stderr and a failing status. -/
def simA : Sim := fun _ => ⟨"same text", "some stderr noise", 3⟩

/-- A stub simulator with the same stdout as `simA` but clean stderr and a
successful status. -/
def simB : Sim := fun _ => ⟨"same text", "", 0⟩

/-- The loop of the script as an execution judgement: `Runs sim grid t`
holds when one execution of the `for arg_set in args` loop over `grid`
against simulator `sim` can produce the event trace `t`. -/
inductive Runs (sim : Sim) : List ArgSet → List Event → Prop
  | nil : Runs sim [] []
  | cons (arg_set : ArgSet) (rest : List ArgSet) (t : List Event) :
      Runs sim rest t → Runs sim (arg_set :: rest) (stepEvents sim arg_set ++ t)

/-- Positional characterisation of a trace: iteration `i` of the loop
contributes the events at positions `3*i`, `3*i+1` and `3*i+2`. -/
theorem loop_getElem (sim : Sim) :
    ∀ (grid : List ArgSet) (i : Nat) (a : ArgSet), grid[i]? = some a →
      (loop sim grid)[3 * i]? = some (Event.launch (cmd a)) ∧
      (loop sim grid)[3 * i + 1]? = some (Event.exited (sim (cmd a)).returncode) ∧
      (loop sim grid)[3 * i + 2]? = some (Event.printed (sim (cmd a)).stdout)
  | [], i, a, h => by simp at h
  | b :: rest, 0, a, h => by
    simp at h
    subst h
    simp [loop, stepEvents]
  | b :: rest, i + 1, a, h => by
    simp at h
    have ih := loop_getElem sim rest i a h
    have e3 : 3 * (i + 1) = 3 * i + 3 := by ring
    simpa [loop, stepEvents, e3, Nat.add_assoc] using ih

/-- The trace `loop sim grid` is an execution of the loop. -/
theorem runs_loop (sim : Sim) : ∀ grid : List ArgSet, Runs sim grid (loop sim grid)
  | [] => Runs.nil
  | arg_set :: rest => Runs.cons arg_set rest _ (runs_loop sim rest)

/-- The sequence of launch events of a trace is one launch per tuple, in
grid order, with the tuple's command. -/
theorem loop_launches (sim : Sim) :
    ∀ grid : List ArgSet, (loop sim grid).filterMap launchOf = grid.map cmd
  | [] => rfl
  | arg_set :: rest => by
    simp [loop, stepEvents, launchOf, loop_launches sim rest]

/-- The sequence of texts passed to `print` is one text per tuple, in grid
order, equal to the child's captured stdout. -/
theorem loop_prints (sim : Sim) :
    ∀ grid : List ArgSet,
      (loop sim grid).filterMap printedOf =
        grid.map (fun a => (sim (cmd a)).stdout)
  | [] => rfl
  | arg_set :: rest => by
    simp [loop, stepEvents, printedOf, loop_prints sim rest]

/-- Claim C1: for every parameter tuple, the constructed command is the
invocation prefix `go run` and the entry-point identifier `test1.go`
followed by exactly 7 trailing arguments, and those trailing arguments are
the string representations of the tuple's seven fields in original order. -/
theorem cmd_seven_trailing_args (a : ArgSet) :
    cmd a = ["go", "run"] ++ ["test1.go"] ++ (fields a).map toString ∧
    ((fields a).map toString).length = 7 := by
  cases a
  exact ⟨rfl, rfl⟩

/-- Claim C2: the texts the harness prints, in trace order, are exactly the
captured stdout of each tuple's child, in grid order; moreover each print
event sits right after the termination event of that tuple's child
(positions `3*i+1` and `3*i+2` of the trace). -/
theorem prints_match_children (sim : Sim) (grid : List ArgSet) :
    (loop sim grid).filterMap printedOf =
      grid.map (fun a => (sim (cmd a)).stdout) ∧
    ∀ (i : Nat) (a : ArgSet), grid[i]? = some a →
      (loop sim grid)[3 * i + 1]? = some (Event.exited (sim (cmd a)).returncode) ∧
      (loop sim grid)[3 * i + 2]? = some (Event.printed (sim (cmd a)).stdout) :=
  ⟨loop_prints sim grid, fun i a h =>
    ⟨(loop_getElem sim grid i a h).2.1, (loop_getElem sim grid i a h).2.2⟩⟩

/-- Witness for C2 at the embedded grid, its first tuple and a concrete stub
simulator. -/
theorem prints_match_children_witness :
    ((loop simZ args).filterMap printedOf =
      args.map (fun a => (simZ (cmd a)).stdout)) ∧
    ((loop simZ args)[3 * 0 + 1]? =
      some (Event.exited
        (simZ (cmd ⟨5, 512, 10000000000, 5, 10000, 100000, 76⟩)).returncode) ∧
     (loop simZ args)[3 * 0 + 2]? =
      some (Event.printed
        (simZ (cmd ⟨5, 512, 10000000000, 5, 10000, 100000, 76⟩)).stdout)) :=
  ⟨(prints_match_children simZ args).1,
   (prints_match_children simZ args).2 0
     ⟨5, 512, 10000000000, 5, 10000, 100000, 76⟩ (by decide)⟩

/-- Claim C3: the child is launched exactly once per tuple — the launch
events of a run are in bijection with the grid, in order, and for the
embedded grid the invocation count is 5. -/
theorem launch_count (sim : Sim) (grid : List ArgSet) :
    (loop sim grid).filterMap launchOf = grid.map cmd ∧
    ((loop sim grid).filterMap launchOf).length = grid.length ∧
    ((loop sim args).filterMap launchOf).length = 5 := by
  refine ⟨loop_launches sim grid, ?_, ?_⟩
  · simp [loop_launches sim grid]
  · rw [loop_launches sim args]
    rfl

/-- Claim C4: invocations are strictly sequential in grid order — the
termination event of tuple `i`'s child occurs in the trace strictly before
the launch event of tuple `i+1`'s child. -/
theorem sequential_order (sim : Sim) (grid : List ArgSet) (i : Nat)
    (a b : ArgSet) (ha : grid[i]? = some a) (hb : grid[i + 1]? = some b) :
    3 * i + 1 < 3 * (i + 1) ∧
    (loop sim grid)[3 * i + 1]? = some (Event.exited (sim (cmd a)).returncode) ∧
    (loop sim grid)[3 * (i + 1)]? = some (Event.launch (cmd b)) :=
  ⟨by omega, (loop_getElem sim grid i a ha).2.1,
   (loop_getElem sim grid (i + 1) b hb).1⟩

/-- Witness for C4 at the embedded grid, its first two tuples and a concrete
stub simulator. -/
theorem sequential_order_witness :
    3 * 0 + 1 < 3 * (0 + 1) ∧
    (loop simZ args)[3 * 0 + 1]? =
      some (Event.exited (simZ (cmd ⟨5, 512, 10000000000, 5, 10000, 100000, 76⟩)).returncode) ∧
    (loop simZ args)[3 * (0 + 1)]? =
      some (Event.launch (cmd ⟨5, 512, 10000000000, 10, 10000, 100000, 76⟩)) :=
  sequential_order simZ args 0
    ⟨5, 512, 10000000000, 5, 10000, 100000, 76⟩
    ⟨5, 512, 10000000000, 10, 10000, 100000, 76⟩
    (by decide) (by decide)

/-- Claim C5: a child exiting with a non-zero status (possibly with empty
output) does not stop the sweep — every tuple of the grid is still invoked,
in order, and the harness process still exits with status 0. -/
theorem failures_do_not_stop_sweep (sim : Sim) (grid : List ArgSet)
    (_h : ∃ a ∈ grid, (sim (cmd a)).returncode ≠ 0) :
    (run sim grid).events.filterMap launchOf = grid.map cmd ∧
    (run sim grid).exitStatus = 0 :=
  ⟨loop_launches sim grid, rfl⟩

/-- Witness for C5: a stub that always fails with empty output, over the
embedded grid. -/
theorem failures_do_not_stop_sweep_witness :
    (∃ a ∈ args, (simFail (cmd a)).returncode ≠ 0) ∧
    ((run simFail args).events.filterMap launchOf = args.map cmd ∧
     (run simFail args).exitStatus = 0) :=
  ⟨by decide, failures_do_not_stop_sweep simFail args (by decide)⟩

/-- Claim C6: the parameter grid is exactly five hard-coded tuples of seven
positive integers, `(5, 512, 10^10, b, 10000, 100000, 76)` for `b` in
`5, 10, 15, 20, 40`, in that order. -/
theorem grid_is_fixed :
    args = [⟨5, 512, 10 ^ 10, 5, 10000, 100000, 76⟩,
            ⟨5, 512, 10 ^ 10, 10, 10000, 100000, 76⟩,
            ⟨5, 512, 10 ^ 10, 15, 10000, 100000, 76⟩,
            ⟨5, 512, 10 ^ 10, 20, 10000, 100000, 76⟩,
            ⟨5, 512, 10 ^ 10, 40, 10000, 100000, 76⟩] ∧
    args.length = 5 ∧
    ∀ a ∈ args, ∀ x ∈ fields a, 0 < x := by
  refine ⟨?_, rfl, by decide⟩
  norm_num [args]

/-- Claim C7: an empty grid produces no launch event, no console output, and
a successful harness termination. -/
theorem empty_grid_silent (sim : Sim) :
    loop sim [] = [] ∧
    ((loop sim []).filterMap launchOf).length = 0 ∧
    consoleOf (loop sim []) = "" ∧
    (run sim []).exitStatus = 0 :=
  ⟨rfl, rfl, rfl, rfl⟩

/-- Claim C8: the harness's console output and exit status depend only on
the children's stdout texts — two simulators that agree on stdout but differ
arbitrarily in exit statuses and stderr yield identical console output and
identical harness exit status. -/
theorem output_independent_of_status_and_stderr (sim1 sim2 : Sim)
    (grid : List ArgSet) (h : ∀ c, (sim1 c).stdout = (sim2 c).stdout) :
    consoleOf (loop sim1 grid) = consoleOf (loop sim2 grid) ∧
    (run sim1 grid).exitStatus = (run sim2 grid).exitStatus := by
  refine ⟨?_, rfl⟩
  have hf : (fun a => (sim1 (cmd a)).stdout) = fun a => (sim2 (cmd a)).stdout :=
    funext fun a => h (cmd a)
  simp only [consoleOf, loop_prints, hf]

/-- Witness for C8: two stubs with the same stdout, differing in stderr and
exit status, over the embedded grid. -/
theorem output_independent_witness :
    (∀ c, (simA c).stdout = (simB c).stdout) ∧
    (consoleOf (loop simA args) = consoleOf (loop simB args) ∧
     (run simA args).exitStatus = (run simB args).exitStatus) :=
  ⟨fun _ => rfl,
   output_independent_of_status_and_stderr simA simB args fun _ => rfl⟩

/-- Claim C9: each print call emits the child's stdout text followed by
exactly one extra newline, so the console output is the concatenation of the
stdout texts each terminated by a newline — which differs from the bare
concatenation of the stdout texts themselves. -/
theorem console_output_newline_terminated :
    (∀ (sim : Sim) (grid : List ArgSet),
      consoleOf (loop sim grid) =
        concatAll (grid.map (fun a => (sim (cmd a)).stdout ++ "\n"))) ∧
    consoleOf (loop simX args) ≠
      concatAll ((loop simX args).filterMap printedOf) := by
  constructor
  · intro sim grid
    simp only [consoleOf, loop_prints, List.map_map]
    rfl
  · decide

/-- Claim C10: with the external program modelled as a fixed function from
the argument list to a result, the run is deterministic — any two executions
of the loop over the same grid produce the same launch-command sequence and
the same console output. -/
theorem run_deterministic (sim : Sim) (grid : List ArgSet)
    (t1 t2 : List Event) (h1 : Runs sim grid t1) (h2 : Runs sim grid t2) :
    t1.filterMap launchOf = t2.filterMap launchOf ∧
    consoleOf t1 = consoleOf t2 := by
  have ht : t1 = t2 := by
    induction h1 generalizing t2 with
    | nil => cases h2; rfl
    | cons a rest t _ ih =>
      cases h2 with
      | cons _ _ t2' h2' => rw [ih t2' h2']
  rw [ht]
  exact ⟨rfl, rfl⟩

/-- Witness for C10: two executions over the embedded grid against the same
stub simulator. -/
theorem run_deterministic_witness :
    (loop simZ args).filterMap launchOf = (loop simZ args).filterMap launchOf ∧
    consoleOf (loop simZ args) = consoleOf (loop simZ args) :=
  run_deterministic simZ args (loop simZ args) (loop simZ args)
    (runs_loop simZ args) (runs_loop simZ args)

end RunScript
